import Mathlib

/-!
Shallow embedding of the `gitignore-filter` repository (Python) for
checking its natural-language specification.

Layout of the development:
* character-list string primitives (Python `str` operations, embedded
  structurally so that every definition evaluates inside the kernel);
* glob / gitwildmatch matching model (the repository delegates matching to
  the external `pathspec` library; that library is not part of the
  repository's sources, so its gitwildmatch semantics is modelled from the
  spec's grammar, §4.1, and the documented gitwildmatch behaviour);
* `pathspec_util` pattern normalization (from
  `src/gitignore_filter/utils/pathspec_util.py`);
* `PathSpecPattern` (from `src/gitignore_filter/patterns/pathspec.py` and
  `patterns/base.py`);
* `PatternCache` (from `src/gitignore_filter/utils/cache.py`), in explicit
  state-passing style;
* `GitIgnoreScanner` (from `src/gitignore_filter/scanner/ignore.py`);
* `BaseScanner.is_ignored` (from `src/gitignore_filter/scanner/base.py`);
* the orchestrator's pattern merge and top-level enumeration (from
  `src/gitignore_filter/scanner/worker.py`);
* the theorems, one per claim.
-/

/-! ### Generic list dictionary helpers

Python `dict` used by the cache and the per-pattern tables: an
insertion-ordered association list where updating an existing key keeps its
position and inserting a new key appends at the end. -/

/-- Lookup in an insertion-ordered association list (Python `dict.get`). -/
def dictGet {α β : Type} [DecidableEq α] (d : List (α × β)) (k : α) : Option β :=
  match d with
  | [] => none
  | (k', v) :: rest => if k' = k then some v else dictGet rest k

/-- Update-or-append in an insertion-ordered association list
(Python `dict[k] = v`). -/
def dictSet {α β : Type} [DecidableEq α] (d : List (α × β)) (k : α) (v : β) :
    List (α × β) :=
  match d with
  | [] => [(k, v)]
  | (k', v') :: rest =>
    if k' = k then (k, v) :: rest else (k', v') :: dictSet rest k v

/-! ### Python string primitives

Structural embeddings of the `str` operations the sources use, over
character lists, so that every concrete evaluation reduces inside the
kernel. -/

/-- The whitespace characters removed by Python `str.strip()` (the ASCII
ones; the sources only strip pattern lines). -/
def isSpaceChar (c : Char) : Bool :=
  c == ' ' || c == '\t' || c == '\n' || c == '\r' ||
    c == '\x0b' || c == '\x0c'

/-- Python `str.strip()`. -/
def pyStrip (s : String) : String :=
  String.mk (((s.toList.dropWhile isSpaceChar).reverse.dropWhile
    isSpaceChar).reverse)

/-- Split a character list at every occurrence of a separator character
(Python `str.split(sep)`, which yields `[""]` on the empty string). -/
def charSplit (sep : Char) : List Char → List (List Char)
  | [] => [[]]
  | c :: rest =>
    match charSplit sep rest with
    | [] => [[c]]
    | seg :: segs => if c == sep then [] :: seg :: segs else (c :: seg) :: segs

/-- `/`-splitting of a path or pattern string (Python `s.split('/')`). -/
def strSplitOnSlash (s : String) : List String :=
  (charSplit '/' s.toList).map String.mk

/-- Prefix test on character lists. -/
def listStartsWith : List Char → List Char → Bool
  | [], _ => true
  | _ :: _, [] => false
  | p :: ps, c :: cs => p == c && listStartsWith ps cs

/-- Python `str.startswith`. -/
def strStartsWith (s p : String) : Bool :=
  listStartsWith p.toList s.toList

/-- Python `str.endswith`. -/
def strEndsWith (s p : String) : Bool :=
  listStartsWith p.toList.reverse s.toList.reverse

/-- Python `s[n:]`. -/
def strDrop (s : String) (n : Nat) : String :=
  String.mk (s.toList.drop n)

/-- The single-character replacement `s.replace("\\", "/")` used by
`_normalize_pattern` and `match_path`. -/
def backslashToSlash (s : String) : String :=
  String.mk (s.toList.map (fun c => if c == '\\' then '/' else c))

/-- The uppercase-to-lowercase letter table for `asciiLower`. -/
def azPairs : List (Char × Char) :=
  [('A', 'a'), ('B', 'b'), ('C', 'c'), ('D', 'd'), ('E', 'e'), ('F', 'f'),
   ('G', 'g'), ('H', 'h'), ('I', 'i'), ('J', 'j'), ('K', 'k'), ('L', 'l'),
   ('M', 'm'), ('N', 'n'), ('O', 'o'), ('P', 'p'), ('Q', 'q'), ('R', 'r'),
   ('S', 's'), ('T', 't'), ('U', 'u'), ('V', 'v'), ('W', 'w'), ('X', 'x'),
   ('Y', 'y'), ('Z', 'z')]

/-- ASCII lowercasing (Python `str.lower()` on the ASCII range; the
case-insensitive mode lowercases patterns and paths). -/
def asciiLower (s : String) : String :=
  String.mk (s.toList.map (fun c =>
    match azPairs.find? (fun p => p.1 == c) with
    | some p => p.2
    | none => c))

/-- Lexicographic order on character lists by code point (the order Python
`sorted` uses on strings). -/
def lexLe : List Char → List Char → Bool
  | [], _ => true
  | _ :: _, [] => false
  | a :: as, b :: bs =>
    if a.toNat < b.toNat then true
    else if b.toNat < a.toNat then false
    else lexLe as bs

/-- Insert into a lexicographically sorted string list. -/
def sortedInsert (s : String) : List String → List String
  | [] => [s]
  | t :: rest =>
    if lexLe s.toList t.toList then s :: t :: rest else t :: sortedInsert s rest

/-- Python `sorted` on strings (insertion sort). -/
def pySortStrings : List String → List String
  | [] => []
  | s :: rest => sortedInsert s (pySortStrings rest)

/-- Keep the first occurrence of every element (the distinct elements a
Python `set` holds, in some order). -/
def listDedupKeepFirst : List String → List String
  | [] => []
  | s :: rest => s :: (listDedupKeepFirst rest).filter (fun t => t ≠ s)

/-! ### Gitwildmatch matcher model

Modelled from the spec: §4.1 grammar ("`*` matches any run of characters
excluding `/`; `**` matches zero or more path segments including the empty
case; `?` matches one non-`/` character; a pattern with no `/` besides a
possible trailing one matches the basename at any depth; a leading `/`
anchors matching; a trailing `/` marks directory-only"), together with the
documented gitwildmatch behaviour of the external `pathspec` library that
the code delegates to (`pathspec.patterns.gitwildmatch`): a matched name
also matches everything beneath it, and a trailing slash is compiled as a
trailing `**` segment so that the bare name itself does not match.
Character classes `[...]` are outside the modelled fragment (no claim uses
them); brace alternation is expanded upstream by `PathSpecPattern`. -/

/-- Segment-level glob matching: `*` is any run of non-`/` characters
(tried as every suffix of the remaining text), `?` one character, anything
else a literal character. -/
def globMatch : List Char → List Char → Bool
  | [], cs => cs.isEmpty
  | '*' :: ps, cs => cs.tails.any (fun suffix => globMatch ps suffix)
  | '?' :: ps, cs =>
    match cs with
    | [] => false
    | _ :: cs' => globMatch ps cs'
  | p :: ps, cs =>
    match cs with
    | [] => false
    | c :: cs' => p == c && globMatch ps cs'

/-- One compiled pattern segment: either the `**` multi-segment wildcard or
an ordinary glob over one path segment. -/
inductive GSeg : Type where
  | dstar : GSeg
  | glob : List Char → GSeg
deriving DecidableEq, Repr

/-- Matching of a compiled segment list against the `/`-split path, with
pathspec's implicit trailing "also match everything beneath" rule: an
exhausted pattern with path segments remaining still matches, and a
trailing `**` requires at least one further (possibly empty) segment. -/
def wildMatch : List GSeg → List String → Bool
  | [], _ => true
  | [GSeg.dstar], ss => !ss.isEmpty
  | GSeg.dstar :: rest, ss => ss.tails.any (fun suffix => wildMatch rest suffix)
  | GSeg.glob _ :: _, [] => false
  | GSeg.glob g :: rest, s :: ss => globMatch g s.toList && wildMatch rest ss

/-- Compile one normalized gitwildmatch pattern into segments, following
pathspec's `GitWildMatchPattern`: a leading `/` anchors (the empty first
segment is dropped), a pattern with no `/` besides a possible trailing one
gets a `**` prepended, and a trailing `/` (empty last segment) is turned
into a trailing `**` segment. -/
def gwCompile (pat : String) : List GSeg :=
  let segs := strSplitOnSlash pat
  let segs :=
    match segs with
    | [] => []
    | first :: _ =>
      if first = "" then segs.tail
      else if (segs.length = 1 ∨ (segs.length = 2 ∧ segs.getLast! = "")) ∧
          first ≠ "**" then
        "**" :: segs
      else segs
  let segs :=
    if segs.length > 1 ∧ segs.getLast! = "" then segs.dropLast ++ ["**"]
    else segs
  segs.map (fun s => if s = "**" then GSeg.dstar else GSeg.glob s.toList)

/-! ### Pattern normalization

From `src/gitignore_filter/utils/pathspec_util.py`. -/

/-- Escape-sequence pass of `_normalize_pattern`: a `\` makes the following
character literal (after the preceding backslash-to-slash replacement this
pass is an identity, but it is embedded as written). -/
def processEscapes : List Char → List Char
  | [] => []
  | '\\' :: c :: rest => c :: processEscapes rest
  | '\\' :: [] => ['\\']
  | c :: rest => c :: processEscapes rest

/-- Slash collapsing of `_normalize_pattern` (`while "//" in s: replace`):
the fixpoint collapses every run of `/` to a single `/`, implemented as one
pass over the characters. -/
def collapseSlashes : List Char → List Char
  | [] => []
  | [c] => [c]
  | c :: d :: rest =>
    if c == '/' && d == '/' then collapseSlashes (d :: rest)
    else c :: collapseSlashes (d :: rest)

/-- `pathspec_util._normalize_pattern`: strip, drop comments and blanks,
replace backslashes by slashes, process escapes, collapse double slashes,
drop a leading `./`, and lowercase when case-insensitive. -/
def normalize_pattern (pattern : String) (case_sensitive : Bool) : String :=
  let pattern := pyStrip pattern
  if pattern = "" ∨ strStartsWith pattern "#" then ""
  else
    let normalized := backslashToSlash pattern
    let normalized := String.mk (processEscapes normalized.toList)
    let normalized := String.mk (collapseSlashes normalized.toList)
    let normalized :=
      if strStartsWith normalized "./" then strDrop normalized 2 else normalized
    if case_sensitive then normalized else asciiLower normalized

/-- `pathspec_util.create_pattern_spec`: normalize each non-blank,
non-comment pattern line and compile the surviving ones (the resulting
`PathSpec` is its list of compiled patterns). -/
def create_pattern_spec (patterns : List String) (case_sensitive : Bool) :
    List (List GSeg) :=
  patterns.filterMap (fun pattern =>
    if pattern = "" ∨ strStartsWith pattern "#" then none
    else
      let norm := normalize_pattern pattern case_sensitive
      if norm = "" then none else some (gwCompile norm))

/-- `pathspec.PathSpec.match_file` for a spec of include-only patterns (the
`!` prefix is stripped upstream by `GitIgnoreScanner.add_patterns`, so every
compiled pattern here is an include pattern): some pattern matches. -/
def specMatchFile (spec : List (List GSeg)) (path : String) : Bool :=
  spec.any (fun segs => wildMatch segs (strSplitOnSlash path))

/-- `pathspec_util.match_path`: normalize the path separators, lowercase the
path when matching case-insensitively, and test the spec.  The callers in
`patterns/pathspec.py` always pass an explicit boolean `case_sensitive`, so
the `case_sensitive is None` fallback branch of the source is dead in the
embedded pathway and is not modelled. -/
def match_path (spec : List (List GSeg)) (path : String) (case_sensitive : Bool) :
    Bool :=
  let normalized := backslashToSlash path
  let normalized := if case_sensitive then normalized else asciiLower normalized
  specMatchFile spec normalized

/-! ### PathSpecPattern

From `src/gitignore_filter/patterns/pathspec.py` and
`src/gitignore_filter/patterns/base.py`.  The compiled `PathSpec` stored by
`__init__` is a pure function of the constructor arguments, so it is
recomputed on demand here instead of being stored. -/

/-- An immutable compiled pattern: text (negation already stripped), the
optional base-directory scope, the negation flag, and the case mode.
`base_path` is stored as given; the source stores `str(Path(base_path))`,
a normalization of the same string that no embedded operation ever reads
beyond its presence. -/
structure PathSpecPattern where
  pattern : String
  base_path : Option String
  negated : Bool
  case_sensitive : Bool
deriving DecidableEq, Repr

/-- `BasePattern.is_directory_only`: the pattern text ends with `/`. -/
def PathSpecPattern.is_directory_only (p : PathSpecPattern) : Bool :=
  strEndsWith p.pattern "/"

/-- The opening curly-bracket character, written via its code point. -/
def leftBrace : Char := '\x7b'

/-- The closing curly-bracket character, written via its code point. -/
def rightBrace : Char := '\x7d'

/-- Index of the first occurrence of a character in a list (`str.index`). -/
def listIdxOf (c : Char) : List Char → Nat
  | [] => 0
  | x :: xs => if x == c then 0 else listIdxOf c xs + 1

/-- Brace-expansion step of `PathSpecPattern.__init__`: when the pattern
contains `{` and `}`, the text between the first occurrence of each is split
on `,` and each alternative is recombined with the surrounding text. -/
def braceExpand (pattern : String) : List String :=
  let cs := pattern.toList
  if cs.contains leftBrace ∧ cs.contains rightBrace then
    let start := listIdxOf leftBrace cs
    let stop := listIdxOf rightBrace cs
    let pre := cs.take start
    let suf := cs.drop (stop + 1)
    let mid := (cs.drop (start + 1)).take (stop - (start + 1))
    (charSplit ',' mid).map (fun alt => String.mk (pre ++ alt ++ suf))
  else [pattern]

/-- Pattern-string list fed to `create_pattern_spec` by
`PathSpecPattern.__init__`: brace expansion, then — when a base path is
present — each pattern is prefixed with `**/` unless it starts with `/`, in
which case the leading `/` is dropped.  The normalized base directory
computed by the source on this branch is never used. -/
def PathSpecPattern.specPatterns (p : PathSpecPattern) : List String :=
  let patterns := braceExpand p.pattern
  match p.base_path with
  | some _ =>
    patterns.map (fun q =>
      if strStartsWith q "/" then strDrop q 1 else "**/" ++ q)
  | none => patterns

/-- The compiled `PathSpec` of a `PathSpecPattern`. -/
def PathSpecPattern.compiledSpec (p : PathSpecPattern) : List (List GSeg) :=
  create_pattern_spec p.specPatterns p.case_sensitive

/-- `PathSpecPattern.match`: when a base path is present the queried path is
prefixed with `**/` unless it starts with `/`; then the compiled spec is
evaluated via `match_path`. -/
def PathSpecPattern.matchPat (p : PathSpecPattern) (path : String) : Bool :=
  let path_str :=
    match p.base_path with
    | some _ => if strStartsWith path "/" then path else "**/" ++ path
    | none => path
  match_path p.compiledSpec path_str p.case_sensitive

/-- `PathSpecPattern.match_file`: a directory-only pattern never matches;
otherwise defer to `match`. -/
def PathSpecPattern.match_file (p : PathSpecPattern) (path : String) : Bool :=
  if p.is_directory_only then false else p.matchPat path

/-- Python `Path(path).name`: the last nonempty `/`-separated component. -/
def pyName (path : String) : String :=
  ((strSplitOnSlash path).filter (fun s => s ≠ "")).getLastD ""

/-- Python `Path(path).suffix`: the final extension of the name, empty when
the only dot is leading or trailing. -/
def pySuffix (path : String) : String :=
  let cs := (pyName path).toList
  if cs.contains '.' then
    let i := cs.length - 1 - listIdxOf '.' cs.reverse
    if 0 < i ∧ i < cs.length - 1 then String.mk (cs.drop i) else ""
  else ""

/-- `PathSpecPattern.match_directory`: return `false` when the path is an
existing file, or does not exist but has a suffix (both filesystem checks
are supplied as flags); otherwise append a trailing `/` when missing and
defer to `match`. -/
def PathSpecPattern.match_directory (p : PathSpecPattern) (path : String)
    (fsIsFile fsExists : Bool) : Bool :=
  if fsIsFile ∨ (¬fsExists ∧ pySuffix path ≠ "") then false
  else
    let path_str := if strEndsWith path "/" then path else path ++ "/"
    p.matchPat path_str

/-! ### PatternCache

From `src/gitignore_filter/utils/cache.py`, in explicit state-passing
style.  Pattern identity (the `WeakKeyDictionary` key, Python object
identity) is modelled as a natural-number id; every `PathSpecPattern`
instance is weak-referenceable, so `_is_cacheable` is `True` on the embedded
pathway and the `try/except` wrappers never fire. -/

/-- The mutable state of one `PatternCache`: per-pattern tables keyed by
pattern id, each mapping `(str(path), is_dir)` to the cached boolean, plus
the capacity and the global hit/miss counters. -/
structure CacheState where
  tables : List (Nat × List ((String × Bool) × Bool))
  max_size : Nat
  hits : Nat
  misses : Nat
deriving DecidableEq, Repr

/-- `PatternCache.__init__`. -/
def PatternCache.init (max_size : Nat) : CacheState :=
  { tables := [], max_size := max_size, hits := 0, misses := 0 }

/-- `PatternCache()` with the default capacity of 10000. -/
def PatternCache.initDefault : CacheState :=
  PatternCache.init 10000

/-- The per-pattern table of a pattern id (empty when absent). -/
def CacheState.table (c : CacheState) (pat : Nat) :
    List ((String × Bool) × Bool) :=
  (dictGet c.tables pat).getD []

/-- `PatternCache.get`: a missing table or key counts as a miss, a present
key as a hit; the cached boolean (or `none`) is returned with the updated
counters. -/
def PatternCache.get (c : CacheState) (pat : Nat) (path : String)
    (is_dir : Bool) : Option Bool × CacheState :=
  match dictGet c.tables pat with
  | none => (none, { c with misses := c.misses + 1 })
  | some tbl =>
    match dictGet tbl (path, is_dir) with
    | some result => (some result, { c with hits := c.hits + 1 })
    | none => (none, { c with misses := c.misses + 1 })

/-- `PatternCache.set`: fetch or create the pattern's table, clear the whole
table when it has reached capacity, then store the new entry. -/
def PatternCache.set (c : CacheState) (pat : Nat) (path : String)
    (is_dir : Bool) (result : Bool) : CacheState :=
  let tbl := c.table pat
  let tbl := if tbl.length ≥ c.max_size then [] else tbl
  let tbl := dictSet tbl (path, is_dir) result
  { c with tables := dictSet c.tables pat tbl }

/-- `PatternCache.hit_ratio`, with the division read over the rationals:
`hits / (hits + misses)` when any access happened, else `0`. -/
def PatternCache.hit_ratio (c : CacheState) : ℚ :=
  if c.hits + c.misses > 0 then (c.hits : ℚ) / ((c.hits : ℚ) + (c.misses : ℚ))
  else 0

/-! ### GitIgnoreScanner

From `src/gitignore_filter/scanner/ignore.py`. -/

/-- A scan context's registry: the case mode fixed at construction and the
append-only ordered pattern list. -/
structure GitIgnoreScanner where
  case_sensitive : Bool
  patterns : List PathSpecPattern
deriving DecidableEq, Repr

/-- `GitIgnoreScanner.__init__` (the cache reference it stores is the
process-global cache, modelled separately as `ProcessState`). -/
def GitIgnoreScanner.init (case_sensitive : Bool) : GitIgnoreScanner :=
  { case_sensitive := case_sensitive, patterns := [] }

/-- `GitIgnoreScanner.add_patterns`: strip a leading `!` into the negation
flag (trimming the remainder), drop entries that become empty, and append
a `PathSpecPattern` for each survivor. -/
def GitIgnoreScanner.add_patterns (sc : GitIgnoreScanner)
    (patterns : List String) (base_path : Option String) : GitIgnoreScanner :=
  patterns.foldl
    (fun s pat =>
      let negated := strStartsWith pat "!"
      let pat := if negated then pyStrip (strDrop pat 1) else pat
      if pat ≠ "" then
        { s with
          patterns := s.patterns ++
            [{ pattern := pat, base_path := base_path, negated := negated,
               case_sensitive := s.case_sensitive }] }
      else s)
    sc

/-- The per-pattern match computed inside `GitIgnoreScanner.is_ignored`:
`match_directory` when the path was classified as a directory, else
`match` (note: not `match_file`). -/
def patternMatches (p : PathSpecPattern) (path : String) (is_dir : Bool)
    (fsIsFile fsExists : Bool) : Bool :=
  if is_dir then p.match_directory path fsIsFile fsExists else p.matchPat path

/-- Loop body of `GitIgnoreScanner.is_ignored` over the indexed pattern
list: query the cache (result unused), recompute the match, store it, and
update the running flag — `false` with an immediate stop on a negated
match, `true` (continuing) on a plain match. -/
def isIgnoredGo (path : String) (is_dir : Bool) (fsIsFile fsExists : Bool) :
    List (Nat × PathSpecPattern) → Bool → CacheState → Bool × CacheState
  | [], matched, cache => (matched, cache)
  | (i, p) :: rest, matched, cache =>
    let cache := (PatternCache.get cache i path is_dir).2
    let m := patternMatches p path is_dir fsIsFile fsExists
    let cache := PatternCache.set cache i path is_dir m
    if p.negated && m then (false, cache)
    else isIgnoredGo path is_dir fsIsFile fsExists rest (matched || m) cache

/-- `GitIgnoreScanner.is_ignored`.  The source derives `is_dir` from the
filesystem (`full_path.is_dir()` when the joined path exists, else a
trailing-slash test) and `match_directory` makes two further filesystem
queries; these environment facts are supplied as the flags `is_dir`,
`fsIsFile` and `fsExists`.  Pattern identity for the cache is the pattern's
position in the registry. -/
def GitIgnoreScanner.is_ignored (sc : GitIgnoreScanner) (cache : CacheState)
    (path : String) (is_dir : Bool) (fsIsFile fsExists : Bool) :
    Bool × CacheState :=
  isIgnoredGo path is_dir fsIsFile fsExists sc.patterns.enum false cache

/-! ### BaseScanner / FileSystemScanner

From `src/gitignore_filter/scanner/base.py` and `scanner/fs.py`:
`BaseScanner.is_ignored` short-circuits on a `.git` path segment and then
defers to `_check_ignore_patterns`, which `FileSystemScanner` implements by
calling `GitIgnoreScanner.is_ignored`. -/

/-- Python `Path(path).parts` restricted to what the `.git` test reads: the
nonempty, non-`.` components (the root component of an absolute path is not
modelled; it is never equal to `.git`). -/
def pyPathParts (path : String) : List String :=
  (strSplitOnSlash path).filter (fun s => s ≠ "" ∧ s ≠ ".")

/-- `BaseScanner.is_ignored` as instantiated by `FileSystemScanner`: always
ignore a path with a `.git` segment, otherwise resolve against the
registry. -/
def BaseScanner.is_ignored (sc : GitIgnoreScanner) (cache : CacheState)
    (path : String) (is_dir : Bool) (fsIsFile fsExists : Bool) :
    Bool × CacheState :=
  if ".git" ∈ pyPathParts path then (true, cache)
  else GitIgnoreScanner.is_ignored sc cache path is_dir fsIsFile fsExists

/-! ### WorkerScanner (orchestrator)

From `src/gitignore_filter/scanner/worker.py`. -/

/-- The serialization used at `WorkerScanner.scan` lines 67-71 to turn an
already-registered pattern back into a string: re-prefix `!` when
negated (the base-path scope is not serialized). -/
def serializePattern (p : PathSpecPattern) : String :=
  if p.negated then "!" ++ p.pattern else p.pattern

/-- The baseline merge of `WorkerScanner.scan` lines 65-74: concatenate the
root-ignore-file pattern strings with the serialization of every pattern
already in the registry, then `list(set(...))`.  A Python `set` of strings
iterates in an unspecified, hash-dependent order, so the embedded result is
the multiset of the distinct entries — everything the later list still
determines. -/
def mergedPatternsMultiset (root_patterns : List String)
    (custom_patterns : List PathSpecPattern) : Multiset String :=
  ((root_patterns ++ custom_patterns.map serializePattern).dedup : List String)

/-- The error classes distinguished by `_get_top_level_entries`. -/
inductive OSErr : Type where
  | permission : OSErr
  | other : OSErr
deriving DecidableEq, Repr

/-- One `os.scandir` entry of the root directory. -/
structure FsEntry where
  name : String
  isDir : Bool
  isFile : Bool
  isSymlink : Bool
deriving DecidableEq, Repr

/-- `WorkerScanner._get_top_level_entries`: partition the root's entries
into non-symlink directories and non-symlink files; a `PermissionError`
from the enumeration is caught and the partial lists (empty when the
enumeration fails at its start, as modelled) are returned as a normal
result, while any other error is re-raised. -/
def getTopLevelEntries (listing : Except OSErr (List FsEntry)) :
    Except OSErr (List String × List String) :=
  match listing with
  | Except.ok entries =>
    Except.ok (entries.foldl
      (fun acc e =>
        if e.isDir ∧ ¬e.isSymlink then (acc.1 ++ [e.name], acc.2)
        else if e.isFile ∧ ¬e.isSymlink then (acc.1, acc.2 ++ [e.name])
        else acc)
      ([], []))
  | Except.error OSErr.permission => Except.ok ([], [])
  | Except.error OSErr.other => Except.error OSErr.other

/-- Root-level file filtering of `WorkerScanner.scan` lines 57-62: keep the
files the baseline registry does not ignore, threading the cache. -/
def filterRootFiles (sc : GitIgnoreScanner) (files : List String)
    (fsIsFile fsExists : Bool) : List String × CacheState :=
  files.foldl
    (fun acc f =>
      let r := BaseScanner.is_ignored sc acc.2 f false fsIsFile fsExists
      (if r.1 then acc.1 else acc.1 ++ [f], r.2))
    ([], PatternCache.initDefault)

/-- The result-assembly skeleton of `WorkerScanner.scan`: enumerate the
top level (propagating exactly what `_get_top_level_entries` propagates),
filter the root-level files against the baseline registry, take each
subdirectory's contribution from `workerResults` (each worker absorbs its
own failures, lines 91-96), and return the sorted deduplicated union. -/
def workerScan (sc : GitIgnoreScanner)
    (listing : Except OSErr (List FsEntry))
    (workerResults : String → List String) :
    Except OSErr (List String) :=
  match getTopLevelEntries listing with
  | Except.error e => Except.error e
  | Except.ok (dirs, files) =>
    let filtered := (filterRootFiles sc files false false).1
    let all := filtered ++ dirs.flatMap workerResults
    Except.ok (pySortStrings (listDedupKeepFirst all))

/-! ### Process-wide state

From `src/gitignore_filter/utils/cache.py` lines 129-135: the module-level
`_global_cache = PatternCache()` created at import time and handed out by
`get_global_cache`, which `GitIgnoreScanner.__init__` stores as the
scanner's cache. -/

/-- The process-wide mutable state: the single module-level cache. -/
structure ProcessState where
  globalCache : CacheState
deriving DecidableEq, Repr

/-- Module import: `_global_cache = PatternCache()`. -/
def initialProcess : ProcessState :=
  { globalCache := PatternCache.initDefault }

/-- `get_global_cache` as read by `GitIgnoreScanner.__init__`: the cache a
newly constructed scanner starts with is the process's current global
cache, not a fresh one. -/
def scannerInitCache (ps : ProcessState) : CacheState :=
  ps.globalCache

/-- Writing the cache state mutated by a scan back into the process (in
the source the mutation happens in place on the shared object). -/
def commitCache (c : CacheState) : ProcessState :=
  { globalCache := c }

/-! ### Spec-side definitions

Definitions that follow the spec's words, for comparison with the
embedded code. -/

/-- Modelled from the spec: §4.2 ignore resolution — "Maintain a running
`ignored` boolean starting `false`.  On a match: if the pattern is negated,
set `ignored = false` and stop evaluating further patterns for this path
(negation is terminal); otherwise set `ignored = true` and continue."  The
input is the registration-ordered list of (negated, matched) observations.
-/
def specResolve : List (Bool × Bool) → Bool → Bool
  | [], flag => flag
  | (negated, m) :: rest, flag =>
    if m then (if negated then false else specResolve rest true)
    else specResolve rest flag

/-- Modelled from the spec: §4.5 step 2 — merge overlay patterns into the
baseline "preserving input order and exact-duplicate removal only by
identical (text, scope) pair", keeping the first occurrence of each exact
(text, scope) pair. -/
def specMergedPatterns : List (String × Option String) →
    List (String × Option String)
  | [] => []
  | e :: rest =>
    e :: (specMergedPatterns rest).filter (fun e' => e' ≠ e)

/-- Modelled from the spec: the glossary's "Base path / scope: the directory
a pattern was registered under; it applies only within that subtree" — a
path `P` lies under a base directory `D` when it is `D` itself or starts
with `D/`. -/
def liesUnder (p d : String) : Bool :=
  p == d || strStartsWith p (d ++ "/")

/-! ### Helper lemmas -/

/-- Mapping a function of the entries over an indexed list forgets the
indices. -/
theorem enumFrom_map_snd {α β : Type} (g : α → β) :
    ∀ (l : List α) (n : Nat),
      (List.enumFrom n l).map (fun ip => g ip.2) = l.map g := by
  intro l
  induction l with
  | nil => intro n; rfl
  | cons a rest ih =>
    intro n
    simp only [List.enumFrom, List.map_cons, ih]

/-- The boolean produced by the `is_ignored` loop is the spec's
running-flag resolution of the per-pattern (negated, matched)
observations, for any starting flag and any cache state. -/
theorem isIgnoredGo_fst (path : String) (is_dir fsIsFile fsExists : Bool) :
    ∀ (l : List (Nat × PathSpecPattern)) (flag : Bool) (cache : CacheState),
      (isIgnoredGo path is_dir fsIsFile fsExists l flag cache).1 =
        specResolve
          (l.map (fun ip =>
            ((ip.2).negated, patternMatches ip.2 path is_dir fsIsFile fsExists)))
          flag := by
  intro l
  induction l with
  | nil => intro flag cache; rfl
  | cons ip rest ih =>
    intro flag cache
    obtain ⟨i, p⟩ := ip
    simp only [isIgnoredGo, List.map_cons, specResolve]
    cases hm : patternMatches p path is_dir fsIsFile fsExists with
    | false =>
      cases hn : p.negated with
      | false => simp only [Bool.and_false, Bool.false_and, if_neg,
          Bool.false_eq_true, not_false_eq_true, ih, Bool.or_false,
          if_false, Bool.and_self]
      | true => simp only [Bool.and_false, ih, Bool.or_false, if_false,
          Bool.false_eq_true, not_false_eq_true, if_neg]
    | true =>
      cases hn : p.negated with
      | false => simp only [Bool.false_and, Bool.false_eq_true,
          not_false_eq_true, if_neg, ih, Bool.or_true, if_true]
      | true => simp only [Bool.true_and, if_pos, if_true]
  
/-- Updating a key in an association-list dictionary makes that key's
lookup return the new value. -/
theorem dictGet_dictSet_self {α β : Type} [DecidableEq α]
    (d : List (α × β)) (k : α) (v : β) :
    dictGet (dictSet d k v) k = some v := by
  induction d with
  | nil => simp [dictGet, dictSet]
  | cons e rest ih =>
    obtain ⟨k', v'⟩ := e
    by_cases h : k' = k
    · simp [dictGet, dictSet, h]
    · simp [dictGet, dictSet, h, ih]

/-! ### Example fixtures used by the claim theorems and witnesses -/

/-- A registry with the single pattern `*.txt` registered under the base
directory `sub` (as a nested ignore file in `sub` would register it). -/
def exampleScopedScanner : GitIgnoreScanner :=
  (GitIgnoreScanner.init true).add_patterns ["*.txt"] (some "sub")

/-- A registry with the single directory-only pattern `temp/`. -/
def exampleTempScanner : GitIgnoreScanner :=
  (GitIgnoreScanner.init true).add_patterns ["temp/"] none

/-- A registry with the single negated catch-all pattern `!*`. -/
def exampleNegAllScanner : GitIgnoreScanner :=
  (GitIgnoreScanner.init true).add_patterns ["!*"] none

/-- A registry with the single pattern `*.txt`, unscoped. -/
def exampleStarScanner : GitIgnoreScanner :=
  (GitIgnoreScanner.init true).add_patterns ["*.txt"] none

/-- The process state after a first scan session resolved `a.txt` against
`exampleStarScanner` using the global cache. -/
def processAfterScan : ProcessState :=
  commitCache
    (exampleStarScanner.is_ignored (scannerInitCache initialProcess)
      "a.txt" false false false).2

/-- A cache whose pattern-0 table holds 2 entries at capacity 2. -/
def exampleFullCache : CacheState :=
  { tables := [(0, [(("a", false), true), (("b", false), true)])],
    max_size := 2, hits := 0, misses := 0 }

/-- A cache state with one hit and one miss recorded. -/
def exampleCacheOneOne : CacheState :=
  { tables := [], max_size := 5, hits := 1, misses := 1 }

/-- A cache state with no access recorded. -/
def exampleCacheZero : CacheState :=
  { tables := [], max_size := 5, hits := 0, misses := 0 }

/-! ### Claim theorems -/

/-- C1: the baseline merge in `WorkerScanner.scan` pipes the pattern
strings through `list(set(...))`.  The two differently-ordered inputs below
produce the same merged multiset, so no function of the merge's result can
return the patterns in input order for both; the spec-side order-preserving
merge keeps the two orders apart.  This refutes the claim that the input
order of the pattern strings is preserved. -/
theorem C1_set_merge_loses_order :
    mergedPatternsMultiset ["*.txt", "!keep.txt"] [] =
      mergedPatternsMultiset ["!keep.txt", "*.txt"] [] ∧
    (["*.txt", "!keep.txt"] : List String) ≠ ["!keep.txt", "*.txt"] ∧
    specMergedPatterns [("*.txt", none), ("!keep.txt", none)] =
      [("*.txt", none), ("!keep.txt", none)] ∧
    specMergedPatterns [("!keep.txt", none), ("*.txt", none)] =
      [("!keep.txt", none), ("*.txt", none)] :=
  ⟨by decide, by decide, by decide, by decide⟩

/-- C2: `GitIgnoreScanner.is_ignored` never consults a pattern's
base-directory scope (and `PathSpecPattern.__init__` drops the normalized
base it computes): the pattern `*.txt` registered under `sub` matches the
path `other/file.txt` even though that path does not lie under `sub`, and
the resolution reports the path ignored.  This refutes the claim that a
pattern scoped to a directory never contributes a match outside that
subtree. -/
theorem C2_scoped_pattern_leaks :
    exampleScopedScanner.patterns.map PathSpecPattern.base_path =
      [some "sub"] ∧
    liesUnder "other/file.txt" "sub" = false ∧
    (exampleScopedScanner.is_ignored PatternCache.initDefault
      "other/file.txt" false false false).1 = true :=
  ⟨by decide, by decide, by decide⟩

/-- C3: `WorkerScanner._get_top_level_entries` catches `PermissionError`
from the root enumeration and returns the (empty) partial lists as a
normal result, so the scan completes with an empty result list instead of
propagating the error — only non-permission errors are re-raised.  This
refutes the claim that a permission failure on the root is fatal and
surfaces to the caller. -/
theorem C3_root_permission_absorbed (sc : GitIgnoreScanner)
    (w : String → List String) :
    workerScan sc (Except.error OSErr.permission) w = Except.ok [] ∧
    workerScan sc (Except.error OSErr.other) w =
      Except.error OSErr.other :=
  ⟨rfl, rfl⟩

/-- C4: for every registry, cache state, path and is-directory flag (and
any filesystem answers), the boolean computed by
`GitIgnoreScanner.is_ignored` equals the spec's §4.2 resolution: a running
flag starting `false`, scanned in registration order, set to `false` with
an immediate stop by a matching negated pattern and to `true` (continuing)
by a matching plain pattern. -/
theorem C4_resolution_is_running_flag (sc : GitIgnoreScanner)
    (cache : CacheState) (path : String) (is_dir fsIsFile fsExists : Bool) :
    (sc.is_ignored cache path is_dir fsIsFile fsExists).1 =
      specResolve
        (sc.patterns.map (fun p =>
          (p.negated, patternMatches p path is_dir fsIsFile fsExists)))
        false := by
  show (isIgnoredGo path is_dir fsIsFile fsExists
    (List.enumFrom 0 sc.patterns) false cache).1 = _
  rw [isIgnoredGo_fst]
  rw [enumFrom_map_snd
    (fun p => (p.negated, patternMatches p path is_dir fsIsFile fsExists))]

/-- C5: `BaseScanner.is_ignored` returns `true` before consulting any
pattern whenever the path has a `.git` segment, for every registry
(including registries holding negated patterns), cache state and
filesystem answers. -/
theorem C5_git_segment_always_ignored (sc : GitIgnoreScanner)
    (cache : CacheState) (path : String) (is_dir fsIsFile fsExists : Bool)
    (h : ".git" ∈ pyPathParts path) :
    (BaseScanner.is_ignored sc cache path is_dir fsIsFile fsExists).1 =
      true := by
  unfold BaseScanner.is_ignored
  rw [if_pos h]

/-- C5 witness: the path `.git/config` has a `.git` segment and is reported
ignored even against a registry whose only pattern is the negated
catch-all `!*`. -/
theorem C5_git_segment_always_ignored_witness :
    ".git" ∈ pyPathParts ".git/config" ∧
    (BaseScanner.is_ignored exampleNegAllScanner PatternCache.initDefault
      ".git/config" false false false).1 = true :=
  ⟨by decide,
   C5_git_segment_always_ignored exampleNegAllScanner PatternCache.initDefault
     ".git/config" false false false (by decide)⟩

/-- C6 counterexample: the registry holding only the directory-only
pattern `temp/` reports the file path `temp/x` (queried with the
is-directory flag `false`) as ignored, so in the resolution a
directory-only pattern does match a file path — the claim's universal
"never matches a file" fails (the resolution calls `match`, not
`match_file`, and the compiled pattern matches everything beneath
`temp`). -/
theorem C6_dir_only_matches_file_counterexample :
    exampleTempScanner.patterns.all PathSpecPattern.is_directory_only =
      true ∧
    (exampleTempScanner.is_ignored PatternCache.initDefault "temp/x"
      false false false).1 = true :=
  ⟨by decide, by decide⟩

/-- C6 amended: a directory-only pattern never matches a file at the
pattern's own name — `temp/` leaves a file literally named `temp`
unmatched while matching the directory `temp` — and the `match_file`
entry point returns `false` for every directory-only pattern on every
path; only file paths lying beneath a directory matched by the pattern are
matched in the resolution. -/
theorem C6_dir_only_amended :
    (exampleTempScanner.is_ignored PatternCache.initDefault "temp"
      false false false).1 = false ∧
    (exampleTempScanner.is_ignored PatternCache.initDefault "temp"
      true false false).1 = true ∧
    (∀ (p : PathSpecPattern) (path : String),
      p.is_directory_only = true → p.match_file path = false) := by
  refine ⟨by decide, by decide, ?_⟩
  intro p path h
  unfold PathSpecPattern.match_file
  rw [if_pos h]

/-- C6 amended witness: the directory-only pattern `temp/` (as compiled by
the registry) yields `false` from `match_file` at the path `temp`. -/
theorem C6_dir_only_amended_witness :
    PathSpecPattern.is_directory_only
      { pattern := "temp/", base_path := none, negated := false,
        case_sensitive := true } = true ∧
    PathSpecPattern.match_file
      { pattern := "temp/", base_path := none, negated := false,
        case_sensitive := true } "temp" = false :=
  ⟨by decide,
   C6_dir_only_amended.2.2
     { pattern := "temp/", base_path := none, negated := false,
       case_sensitive := true } "temp" (by decide)⟩

/-- C7: the cache handed to a scanner constructed after a first scan
session is the process-global cache as the first session left it — one
recorded miss and a stored entry — not a fresh `PatternCache()`.  This
refutes the claim that no mutable object survives one scan invocation into
the next. -/
theorem C7_global_cache_survives_scan :
    scannerInitCache processAfterScan ≠ scannerInitCache initialProcess ∧
    (scannerInitCache processAfterScan).misses = 1 ∧
    (scannerInitCache processAfterScan).table 0 =
      [(("a.txt", false), true)] :=
  ⟨by decide, by decide, by decide⟩

/-- C8: the default capacity is 10000, and `PatternCache.set` on a
per-pattern table at (or beyond) capacity clears that whole table before
storing, leaving exactly the new entry; below capacity it only
updates-or-appends, evicting nothing. -/
theorem C8_capacity_bulk_reset :
    PatternCache.initDefault.max_size = 10000 ∧
    (∀ (c : CacheState) (pat : Nat) (path : String) (d v : Bool),
      c.max_size ≤ (c.table pat).length →
      (PatternCache.set c pat path d v).table pat = [((path, d), v)]) ∧
    (∀ (c : CacheState) (pat : Nat) (path : String) (d v : Bool),
      (c.table pat).length < c.max_size →
      (PatternCache.set c pat path d v).table pat =
        dictSet (c.table pat) (path, d) v) := by
  refine ⟨rfl, ?_, ?_⟩
  · intro c pat path d v h
    have h' : ((dictGet c.tables pat).getD []).length ≥ c.max_size := h
    simp only [PatternCache.set, CacheState.table, dictGet_dictSet_self,
      Option.getD_some]
    rw [if_pos h']
    rfl
  · intro c pat path d v h
    have h' : ¬ ((dictGet c.tables pat).getD []).length ≥ c.max_size :=
      Nat.not_le.mpr h
    simp only [PatternCache.set, CacheState.table, dictGet_dictSet_self,
      Option.getD_some]
    rw [if_neg h']

/-- C8 witness: a table of 2 entries at capacity 2 is wholly cleared by the
next `set`; only the new entry remains. -/
theorem C8_capacity_bulk_reset_witness :
    exampleFullCache.max_size ≤ (exampleFullCache.table 0).length ∧
    (PatternCache.set exampleFullCache 0 "x" false true).table 0 =
      [(("x", false), true)] :=
  ⟨by decide,
   C8_capacity_bulk_reset.2.1 exampleFullCache 0 "x" false true (by decide)⟩

/-- C9: the hit ratio is `0` exactly when no access happened, equals
`hits / (hits + misses)` (over `ℚ`) whenever some access happened, always
lies in `[0, 1]`, and every `get` increments exactly one of the two
counters. -/
theorem C9_hit_ratio_properties :
    (∀ c : CacheState,
      0 ≤ PatternCache.hit_ratio c ∧ PatternCache.hit_ratio c ≤ 1) ∧
    (∀ c : CacheState, c.hits + c.misses = 0 →
      PatternCache.hit_ratio c = 0) ∧
    (∀ c : CacheState, 0 < c.hits + c.misses →
      PatternCache.hit_ratio c =
        (c.hits : ℚ) / ((c.hits : ℚ) + (c.misses : ℚ))) ∧
    (∀ (c : CacheState) (pat : Nat) (path : String) (d : Bool),
      ((PatternCache.get c pat path d).2).hits +
        ((PatternCache.get c pat path d).2).misses =
          c.hits + c.misses + 1) := by
  refine ⟨?_, ?_, ?_, ?_⟩
  · intro c
    unfold PatternCache.hit_ratio
    split
    · next h =>
      have hd : (0 : ℚ) < (c.hits : ℚ) + (c.misses : ℚ) := by
        exact_mod_cast h
      constructor
      · exact div_nonneg (by positivity) hd.le
      · rw [div_le_one hd]
        exact_mod_cast Nat.le_add_right c.hits c.misses
    · next h => exact ⟨le_refl 0, by norm_num⟩
  · intro c h
    unfold PatternCache.hit_ratio
    rw [if_neg (by omega)]
  · intro c h
    unfold PatternCache.hit_ratio
    rw [if_pos h]
  · intro c pat path d
    unfold PatternCache.get
    cases h1 : dictGet c.tables pat with
    | none => simp only [h1]; omega
    | some tbl =>
      cases h2 : dictGet tbl (path, d) with
      | none => simp only [h1, h2]; omega
      | some r => simp only [h1, h2]; omega

/-- C9 witness: the hit ratio evaluates to `0` with no access recorded and
to the counter quotient with one hit and one miss recorded. -/
theorem C9_hit_ratio_properties_witness :
    PatternCache.hit_ratio exampleCacheZero = 0 ∧
    PatternCache.hit_ratio exampleCacheOneOne =
      (exampleCacheOneOne.hits : ℚ) /
        ((exampleCacheOneOne.hits : ℚ) + (exampleCacheOneOne.misses : ℚ)) :=
  ⟨C9_hit_ratio_properties.2.1 exampleCacheZero (by decide),
   C9_hit_ratio_properties.2.2.1 exampleCacheOneOne (by decide)⟩

/-- C10: the boolean decision of `GitIgnoreScanner.is_ignored` is the same
whatever cache state the call starts from — in particular a pre-populated
cache and the empty cache give identical decisions, because the cached
value is looked up but never used and every match is recomputed. -/
theorem C10_decision_cache_independent (sc : GitIgnoreScanner)
    (path : String) (is_dir fsIsFile fsExists : Bool) (cache : CacheState) :
    (sc.is_ignored cache path is_dir fsIsFile fsExists).1 =
      (sc.is_ignored PatternCache.initDefault path is_dir fsIsFile
        fsExists).1 := by
  show (isIgnoredGo path is_dir fsIsFile fsExists
      (List.enumFrom 0 sc.patterns) false cache).1 =
    (isIgnoredGo path is_dir fsIsFile fsExists
      (List.enumFrom 0 sc.patterns) false PatternCache.initDefault).1
  rw [isIgnoredGo_fst, isIgnoredGo_fst]
